import Mathlib

/-!
Shallow embedding of `handleGenericError` (src/unnamed/part_000, lines 10-88),
the generic API error classifier: it receives an arbitrary JavaScript value
thrown by an HTTP call and produces a user-facing message string.

JavaScript values are modelled by the inductive `JSVal`.  Property reads
written `x?.k` in the source (optional chaining, total) are `getOpt`; reads
written `x.k` (strict, throwing a TypeError on null/undefined) are
`getStrict`, so the function is embedded in `Except String JSVal` and
"never raises" is the statement that it always returns `Except.ok`.
Numbers are modelled as integers (the only numeric operations in the source
are `===` comparisons with integer literals and truthiness).
-/

/-- A JavaScript runtime value.  `obj te fs` is an object with ordered own
fields `fs` (first occurrence of a key wins on lookup, as in a JS object
where keys are unique); `te = true` marks the object as an `instanceof
TypeError`, the only prototype fact the source inspects (line 62). -/
inductive JSVal : Type where
  | null : JSVal
  | undefined : JSVal
  | bool : Bool → JSVal
  | num : Int → JSVal
  | str : String → JSVal
  | arr : List JSVal → JSVal
  | obj : Bool → List (String × JSVal) → JSVal

namespace JSVal

/-- JavaScript truthiness: null, undefined, false, 0 and "" are falsy;
every object and array is truthy. -/
def truthy : JSVal → Bool
  | .null => false
  | .undefined => false
  | .bool b => b
  | .num n => n != 0
  | .str s => s != ""
  | .arr _ => true
  | .obj _ _ => true

/-- First binding of `key` in an ordered field list. -/
def lookupField : List (String × JSVal) → String → Option JSVal
  | [], _ => none
  | (k, v) :: rest, key => if k = key then some v else lookupField rest key

/-- Optional-chained property read `v?.k`: `undefined` on null/undefined and
on any primitive or array without such a named property (the source only
reads `response`, `request`, `status`, `data`, `message`, `detail`, none of
which exists on primitives or arrays). -/
def getOpt (v : JSVal) (k : String) : JSVal :=
  match v with
  | .obj _ fs => (lookupField fs k).getD .undefined
  | _ => .undefined

/-- Strict property read `v.k`: raises a TypeError when `v` is null or
undefined, otherwise agrees with `getOpt`. -/
def getStrict (v : JSVal) (k : String) : Except String JSVal :=
  match v with
  | .null => .error "TypeError: cannot read properties of null"
  | .undefined => .error "TypeError: cannot read properties of undefined"
  | v => .ok (getOpt v k)

/-- ECMAScript whitespace (the set honoured by `String.prototype.trim`). -/
def jsWhitespace (c : Char) : Bool :=
  c = ' ' || c = '\t' || c = '\n' || c = '\r' || c = '\x0b' || c = '\x0c' ||
  c = '\u00a0' || c = '\u1680' || ('\u2000' ≤ c && c ≤ '\u200a') ||
  c = '\u2028' || c = '\u2029' || c = '\u202f' || c = '\u205f' ||
  c = '\u3000' || c = '\ufeff'

/-- Truthiness of `s.trim()`: the source only ever uses `trim` inside a
condition (`data.trim()`, `error[0].trim()`, ...), where it is truthy
exactly when `s` contains a non-whitespace character. -/
def nonBlank (s : String) : Bool := s.data.any (fun c => !jsWhitespace c)

/-- The recurring source idiom `typeof v === "string" && v.trim()`. -/
def isNonBlankStr : JSVal → Bool
  | .str s => nonBlank s
  | _ => false

/-- The JS check `typeof v === "object"` (true for null, arrays, objects). -/
def isObjectTypeof : JSVal → Bool
  | .null => true
  | .arr _ => true
  | .obj _ _ => true
  | _ => false

/-- Models `Array.isArray(v)`. -/
def isArray : JSVal → Bool
  | .arr _ => true
  | _ => false

/-- The JS check `v !== null` (written on values of any shape). -/
def isNull : JSVal → Bool
  | .null => true
  | _ => false

/-- The JS check `v === "Failed to fetch"` (strict equality of a value of
unknown shape with a string literal, line 62). -/
def isFailedToFetch : JSVal → Bool
  | .str s => s == "Failed to fetch"
  | _ => false

/-- Models `v.length` for an array (only ever read under an `Array.isArray` guard). -/
def arrLen : JSVal → Nat
  | .arr xs => xs.length
  | _ => 0

/-- Models `v[0]` for an array (only ever read under a length guard). -/
def arrHead : JSVal → JSVal
  | .arr (v :: _) => v
  | _ => .undefined

/-- Models `error instanceof TypeError` (line 62). -/
def isTypeError : JSVal → Bool
  | .obj te _ => te
  | _ => false

/-- Models `Object.values(v)` for the shapes reachable at line 38 (`v` has typeof
"object" and is not null there, so it is an array — own values are its
elements — or a plain object — own values in field order); the string case
is included for completeness of the JS primitive semantics. -/
def objValues : JSVal → List JSVal
  | .arr xs => xs
  | .obj _ fs => fs.map Prod.snd
  | .str s => s.data.map (fun c => .str (String.mk [c]))
  | _ => []

/-- Models `xs.flat()`: flatten exactly one level of array-valued elements. -/
def jsFlat1 : List JSVal → List JSVal
  | [] => []
  | .arr ys :: rest => ys ++ jsFlat1 rest
  | v :: rest => v :: jsFlat1 rest

/-- Lower-case hexadecimal digit. -/
def hexDigit (n : Nat) : Char :=
  if n < 10 then Char.ofNat (48 + n) else Char.ofNat (87 + n)

/-- Four-digit hexadecimal rendering, as in a JSON \u escape. -/
def hex4 (n : Nat) : String :=
  String.mk [hexDigit (n / 4096 % 16), hexDigit (n / 256 % 16),
             hexDigit (n / 16 % 16), hexDigit (n % 16)]

/-- JSON escaping of one character inside a quoted string. -/
def jsonEscapeChar (c : Char) : String :=
  if c = '"' then "\\\""
  else if c = '\\' then "\\\\"
  else if c = '\n' then "\\n"
  else if c = '\r' then "\\r"
  else if c = '\t' then "\\t"
  else if c = '\x08' then "\\b"
  else if c = '\x0c' then "\\f"
  else if c.toNat < 32 then "\\u" ++ hex4 c.toNat
  else String.mk [c]

/-- JSON quoted-string rendering. -/
def jsonQuote (s : String) : String :=
  "\"" ++ String.join (s.data.map jsonEscapeChar) ++ "\""

mutual
/-- Rendering part of `JSON.stringify`, for values it does render (every
`JSVal` except a top-level `undefined`, which `JSON.stringify` maps to the
value `undefined`; that case is handled by `jsonStringifyVal`).  Inside an
array, `undefined` renders as `null`; inside an object, a field whose value
is `undefined` is dropped. -/
def jsonRender : JSVal → String
  | .null => "null"
  | .undefined => "null"
  | .bool b => if b then "true" else "false"
  | .num n => toString n
  | .str s => jsonQuote s
  | .arr xs => "[" ++ String.intercalate "," (jsonItemList xs) ++ "]"
  | .obj _ fs => "\x7b" ++ String.intercalate "," (jsonMemberList fs) ++ "\x7d"

/-- Renderings of the elements of an array, in order. -/
def jsonItemList : List JSVal → List String
  | [] => []
  | v :: rest => jsonRender v :: jsonItemList rest

/-- Renderings of the members of an object, in order, skipping fields whose
value is `undefined` as `JSON.stringify` does. -/
def jsonMemberList : List (String × JSVal) → List String
  | [] => []
  | (_, .undefined) :: rest => jsonMemberList rest
  | (k, v) :: rest => (jsonQuote k ++ ":" ++ jsonRender v) :: jsonMemberList rest
end

/-- Models `JSON.stringify(v)` as a JS value: the string rendering, except that
stringifying `undefined` yields the value `undefined`, not a string. -/
def jsonStringifyVal : JSVal → JSVal
  | .undefined => .undefined
  | v => .str (jsonRender v)

/-- Source lines 32 and 35: `typeof x === "string" ? x : JSON.stringify(x)`. -/
def stringOrJson (v : JSVal) : JSVal :=
  match v with
  | .str s => .str s
  | v => jsonStringifyVal v

/-- Source lines 17-44: the message extracted from `response.data`, if any.
`none` means execution falls through to the status-code fallback.
Line-by-line: a non-blank string body is returned verbatim (17-19); for a
non-null `typeof`-object body: non-blank string `data.message` (24-26),
non-blank string `data.detail` (27-29), first element of a non-empty array
`data.message` (31-33) or `data.detail` (34-36), JSON-stringified when not
a string; else the first non-blank string among `Object.values(data)`
flattened one level (38-43), whose truthiness (`if (fieldError)`) holds
exactly when the `find` succeeded. -/
def messageFromData (data : JSVal) : Option JSVal :=
  if isNonBlankStr data then some data
  else if isObjectTypeof data && !isNull data then
    if isNonBlankStr (getOpt data "message") then some (getOpt data "message")
    else if isNonBlankStr (getOpt data "detail") then some (getOpt data "detail")
    else if isArray (getOpt data "message") && decide (0 < arrLen (getOpt data "message")) then
      some (stringOrJson (arrHead (getOpt data "message")))
    else if isArray (getOpt data "detail") && decide (0 < arrLen (getOpt data "detail")) then
      some (stringOrJson (arrHead (getOpt data "detail")))
    else (jsFlat1 (objValues data)).find? isNonBlankStr
  else none

/-- Source lines 46-53: fallback on `response.status` when the body gave no
message (`status === n` is strict equality with a number literal). -/
def statusFallback : JSVal → String
  | .num n =>
    if n = 401 then "Unauthorized. Please log in again."
    else if n = 403 then "You do not have permission to perform this action."
    else if n = 404 then "Resource not found."
    else if n = 500 then "A server error occurred. Please try again later."
    else "An error occurred. Please try again."
  | _ => "An error occurred. Please try again."

/-- Source lines 10-88, `handleGenericError(error)`.  Each source `if` that
returns makes the following rules an `else`; errors of the `Except` monad
are the TypeErrors a strict property read would raise (none is ever
raised — see `handleGenericError_never_raises`).  Lines 13-14 read
`error.response?.status` and `error.response?.data`: a strict read of
`response` on `error`, then an optional read.  Line 72's condition reads
`error?.message` optionally, then line 73 returns the strict
`error.message` (guarded by the condition, which forces it to be a
string); lines 81-82 do the same on `error[0]`.  In the non-empty-array
rule (77-84) a first element matching neither sub-check falls through to
the same catch-all as line 87. -/
def handleGenericError (error : JSVal) : Except String JSVal :=
  if truthy (getOpt error "response") then
    match getStrict error "response" with
    | .error msg => .error msg
    | .ok resp1 =>
      let status := getOpt resp1 "status"
      match getStrict error "response" with
      | .error msg => .error msg
      | .ok resp2 =>
        let data := getOpt resp2 "data"
        match messageFromData data with
        | some m => .ok m
        | none => .ok (.str (statusFallback status))
  else if truthy (getOpt error "request") && !truthy (getOpt error "response") then
    .ok (.str "No response from server. Please check your internet connection.")
  else if isTypeError error && isFailedToFetch (getOpt error "message") then
    .ok (.str "Network error. Please check your connection.")
  else if isNonBlankStr error then
    .ok error
  else if isNonBlankStr (getOpt error "message") then
    getStrict error "message"
  else if isArray error && decide (0 < arrLen error) then
    if isNonBlankStr (arrHead error) then .ok (arrHead error)
    else if isNonBlankStr (getOpt (arrHead error) "message") then
      getStrict (arrHead error) "message"
    else .ok (.str "An unexpected error occurred. Please try again.")
  else
    .ok (.str "An unexpected error occurred. Please try again.")

/-- Models the source's removal counterfactual for a field: the field list
with every binding of `k` removed. -/
def eraseField (fs : List (String × JSVal)) (k : String) : List (String × JSVal) :=
  fs.filter (fun p => p.1 ≠ k)

/-! Helper lemmas shared by the claim theorems. -/

lemma truthy_undef : truthy undefined = false := rfl

lemma isNonBlankStr_str (s : String) : isNonBlankStr (str s) = nonBlank s := rfl

lemma isNonBlankStr_arr (xs : List JSVal) : isNonBlankStr (arr xs) = false := rfl

lemma arrHead_cons (v : JSVal) (vs : List JSVal) : arrHead (arr (v :: vs)) = v := rfl

lemma isArray_arr (xs : List JSVal) : isArray (arr xs) = true := rfl

lemma arrLen_arr (xs : List JSVal) : arrLen (arr xs) = xs.length := rfl

lemma getOpt_eq_undef_of_truthy_false (v : JSVal) (k : String)
    (h : truthy v = false) : getOpt v k = undefined := by
  cases v <;> first
    | rfl
    | exact absurd h (by simp [truthy])

lemma exists_obj_of_truthy_getOpt (v : JSVal) (k : String)
    (h : truthy (getOpt v k) = true) : ∃ te fs, v = obj te fs := by
  cases v <;> first
    | exact ⟨_, _, rfl⟩
    | simp [getOpt, truthy] at h

lemma exists_obj_of_isNonBlankStr_getOpt (v : JSVal) (k : String)
    (h : isNonBlankStr (getOpt v k) = true) : ∃ te fs, v = obj te fs := by
  cases v <;> first
    | exact ⟨_, _, rfl⟩
    | simp [getOpt, isNonBlankStr] at h

lemma getStrict_obj (te : Bool) (fs : List (String × JSVal)) (k : String) :
    getStrict (obj te fs) k = Except.ok (getOpt (obj te fs) k) := rfl

lemma getStrict_ok_of_isNonBlankStr (v : JSVal) (k : String)
    (h : isNonBlankStr (getOpt v k) = true) :
    getStrict v k = Except.ok (getOpt v k) := by
  obtain ⟨te, fs, rfl⟩ := exists_obj_of_isNonBlankStr_getOpt v k h
  rfl

lemma isNonBlankStr_eq_false_of_objectTypeof (v : JSVal)
    (h : (isObjectTypeof v && !isNull v) = true) : isNonBlankStr v = false := by
  cases v <;> simp_all [isObjectTypeof, isNull, isNonBlankStr]

/-- Once `error?.response` is truthy (rule 1, lines 12-54), the result of
`handleGenericError` is the message found in `response.data`, with the
status-code fallback when there is none. -/
lemma handleGenericError_of_truthy_response (e : JSVal)
    (h : truthy (getOpt e "response") = true) :
    handleGenericError e =
      Except.ok ((messageFromData (getOpt (getOpt e "response") "data")).getD
        (str (statusFallback (getOpt (getOpt e "response") "status")))) := by
  obtain ⟨te, fs, rfl⟩ := exists_obj_of_truthy_getOpt _ _ h
  unfold handleGenericError
  rw [if_pos h, getStrict_obj]
  cases hm : messageFromData (getOpt (getOpt (obj te fs) "response") "data") <;>
    simp [hm]

lemma lookupField_eraseField_self (fs : List (String × JSVal)) (k : String) :
    lookupField (eraseField fs k) k = none := by
  induction fs with
  | nil => rfl
  | cons p rest ih =>
    obtain ⟨k', v⟩ := p
    by_cases hk : k' = k
    · have h1 : eraseField ((k', v) :: rest) k = eraseField rest k := by
        simp [eraseField, List.filter_cons, hk]
      rw [h1, ih]
    · have h1 : eraseField ((k', v) :: rest) k = (k', v) :: eraseField rest k := by
        simp [eraseField, List.filter_cons, hk]
      rw [h1]
      simp only [lookupField]
      rw [if_neg hk, ih]

lemma lookupField_eraseField_ne (fs : List (String × JSVal)) (k k' : String)
    (hne : k' ≠ k) : lookupField (eraseField fs k) k' = lookupField fs k' := by
  induction fs with
  | nil => rfl
  | cons p rest ih =>
    obtain ⟨k'', v⟩ := p
    by_cases hk : k'' = k
    · have h1 : eraseField ((k'', v) :: rest) k = eraseField rest k := by
        simp [eraseField, List.filter_cons, hk]
      rw [h1, ih]
      simp only [lookupField]
      rw [if_neg (fun h : k'' = k' => hne (h ▸ hk))]
    · have h1 : eraseField ((k'', v) :: rest) k = (k'', v) :: eraseField rest k := by
        simp [eraseField, List.filter_cons, hk]
      rw [h1]
      simp only [lookupField]
      by_cases hx : k'' = k' <;> simp [hx, ih]

end JSVal

/-!
Sanity checks: the eight scenarios of spec.md section 8 (plus the two
returns that violate the non-empty-string invariant), each evaluated by
kernel reduction.
-/

section SpecScenarios
open JSVal

example : handleGenericError (.str "Plain string error") = .ok (.str "Plain string error") := rfl

example : handleGenericError (.obj false [("response", .obj false [("status", .num 404), ("data", .obj false [])])]) = .ok (.str "Resource not found.") := rfl

example : handleGenericError (.obj false [("response", .obj false [("status", .num 400), ("data", .obj false [("email", .arr [.str "Email is invalid"])])])]) = .ok (.str "Email is invalid") := rfl

example : handleGenericError (.obj false [("request", .obj false []), ("response", .undefined)]) = .ok (.str "No response from server. Please check your internet connection.") := rfl

example : handleGenericError (.arr [.obj false [("message", .str "First error")], .obj false [("message", .str "Second error")]]) = .ok (.str "First error") := rfl

example : handleGenericError (.obj false []) = .ok (.str "An unexpected error occurred. Please try again.") := rfl

example : handleGenericError (.obj false [("response", .obj false [("status", .num 401), ("data", .null)])]) = .ok (.str "Unauthorized. Please log in again.") := rfl

example : handleGenericError (.obj false [("response", .obj false [("status", .num 200), ("data", .str "Custom failure text")])]) = .ok (.str "Custom failure text") := rfl

example : handleGenericError (.obj false [("response", .obj false [("data", .obj false [("message", .arr [.str ""])])])]) = .ok (.str "") := rfl

example : handleGenericError (.obj false [("response", .obj false [("data", .obj false [("message", .arr [.undefined])])])]) = .ok .undefined := rfl

end SpecScenarios

namespace JSVal

/-- C1: for every input value, of any shape (null, undefined, numbers,
booleans, strings, arrays, arbitrary objects), `handleGenericError` returns
a result and never raises: every strict property read the source performs
is guarded, so the `Except` computation always ends in `Except.ok`. -/
theorem handleGenericError_never_raises (e : JSVal) :
    ∃ v, handleGenericError e = Except.ok v := by
  by_cases h : truthy (getOpt e "response") = true
  · exact ⟨_, handleGenericError_of_truthy_response e h⟩
  · unfold handleGenericError
    rw [if_neg h]
    by_cases h2 : (truthy (getOpt e "request") && !truthy (getOpt e "response")) = true
    · rw [if_pos h2]; exact ⟨_, rfl⟩
    · rw [if_neg h2]
      by_cases h3 : (isTypeError e && isFailedToFetch (getOpt e "message")) = true
      · rw [if_pos h3]; exact ⟨_, rfl⟩
      · rw [if_neg h3]
        by_cases h4 : isNonBlankStr e = true
        · rw [if_pos h4]; exact ⟨_, rfl⟩
        · rw [if_neg h4]
          by_cases h5 : isNonBlankStr (getOpt e "message") = true
          · rw [if_pos h5, getStrict_ok_of_isNonBlankStr e _ h5]; exact ⟨_, rfl⟩
          · rw [if_neg h5]
            by_cases h6 : (isArray e && decide (0 < arrLen e)) = true
            · rw [if_pos h6]
              by_cases h7 : isNonBlankStr (arrHead e) = true
              · rw [if_pos h7]; exact ⟨_, rfl⟩
              · rw [if_neg h7]
                by_cases h8 : isNonBlankStr (getOpt (arrHead e) "message") = true
                · rw [if_pos h8, getStrict_ok_of_isNonBlankStr _ _ h8]; exact ⟨_, rfl⟩
                · rw [if_neg h8]; exact ⟨_, rfl⟩
            · rw [if_neg h6]; exact ⟨_, rfl⟩

/-- C2 claims every return value is a non-empty string.  The code violates
this: when `response.data.message` is the array `[undefined]`, line 32
returns `JSON.stringify(undefined)`, which is the value `undefined` — not
a string at all, contradicting the function's declared return type
`string` and its JSDoc; when it is `[""]`, line 32 returns the empty
string verbatim. -/
theorem handleGenericError_nonempty_string_violated :
    handleGenericError (obj false [("response", obj false [("data",
        obj false [("message", arr [undefined])])])]) = Except.ok undefined ∧
    handleGenericError (obj false [("response", obj false [("data",
        obj false [("message", arr [str ""])])])]) = Except.ok (str "") :=
  ⟨rfl, rfl⟩

/-- C7: once the `response` field is truthy, the result of
`handleGenericError` is a function of `response.status` and
`response.data` alone — fields outside `response` (a top-level `request`
or `message`) never influence it, because rule 1 wins and later rules are
unreachable. -/
theorem handleGenericError_response_shadowing (e₁ e₂ : JSVal)
    (h₁ : truthy (getOpt e₁ "response") = true)
    (h₂ : truthy (getOpt e₂ "response") = true)
    (hst : getOpt (getOpt e₁ "response") "status" = getOpt (getOpt e₂ "response") "status")
    (hdt : getOpt (getOpt e₁ "response") "data" = getOpt (getOpt e₂ "response") "data") :
    handleGenericError e₁ = handleGenericError e₂ := by
  rw [handleGenericError_of_truthy_response e₁ h₁,
      handleGenericError_of_truthy_response e₂ h₂, hst, hdt]

/-- Witness for C7: two inputs agreeing on `response` but differing in the
fields outside it are classified identically. -/
theorem handleGenericError_response_shadowing_witness :
    handleGenericError
        (obj false [("response", obj false [("status", num 404), ("data", obj false [])])]) =
      handleGenericError
        (obj false [("request", obj false []), ("message", str "ignored"),
          ("response", obj false [("status", num 404), ("data", obj false [])])]) :=
  handleGenericError_response_shadowing _ _ rfl rfl rfl rfl

/-- C8: `handleGenericError` is deterministic and side-effect free — two
calls on the same input yield the same result. -/
theorem handleGenericError_deterministic (e : JSVal) (v₁ v₂ : Except String JSVal)
    (h₁ : handleGenericError e = v₁) (h₂ : handleGenericError e = v₂) : v₁ = v₂ :=
  h₁.symm.trans h₂

/-- Witness for C8 at a concrete input. -/
theorem handleGenericError_deterministic_witness :
    (Except.ok (str "Plain string error") : Except String JSVal) =
      Except.ok (str "Plain string error") :=
  handleGenericError_deterministic (str "Plain string error") _ _ rfl rfl

end JSVal

namespace JSVal

/-- Counterexample to C5 as stated: the input `\x7b request: 0 \x7d` carries a
`request` field and no `response`, yet the source's check at line 57 is a
truthiness test, `0` is falsy, and the classification falls through to the
final catch-all instead of returning the no-response message. -/
theorem handleGenericError_request_presence_cex :
    handleGenericError (obj false [("request", num 0)]) =
        Except.ok (str "An unexpected error occurred. Please try again.") ∧
      (Except.ok (str "An unexpected error occurred. Please try again.") : Except String JSVal) ≠
        Except.ok (str "No response from server. Please check your internet connection.") :=
  ⟨rfl, fun h => by
    have h1 : str "An unexpected error occurred. Please try again." =
        str "No response from server. Please check your internet connection." := by
      injection h
    have h2 : "An unexpected error occurred. Please try again." =
        "No response from server. Please check your internet connection." := by
      injection h1
    exact absurd h2 (by decide)⟩

/-- C5 amended: for every input whose `request` field is truthy and whose
`response` field is absent or falsy, `handleGenericError` returns exactly
the no-response message. -/
theorem handleGenericError_request_no_response (e : JSVal)
    (hreq : truthy (getOpt e "request") = true)
    (hresp : truthy (getOpt e "response") = false) :
    handleGenericError e =
      Except.ok (str "No response from server. Please check your internet connection.") := by
  unfold handleGenericError
  rw [if_neg (by simp [hresp]), if_pos (by simp [hreq, hresp])]

/-- Witness for the amended C5 at the spec's own scenario,
`\x7b request: \x7b\x7d, response: undefined \x7d`. -/
theorem handleGenericError_request_no_response_witness :
    handleGenericError (obj false [("request", obj false []), ("response", undefined)]) =
      Except.ok (str "No response from server. Please check your internet connection.") :=
  handleGenericError_request_no_response _ rfl rfl

/-- Counterexample to C4 as stated: the input `\x7b response: 0 \x7d` carries a
`response` field whose body yields no usable message and whose status is
missing, so C4 predicts "An error occurred. Please try again."; but the
rule-1 check at line 12 is a truthiness test, `0` is falsy, and the code
falls through to the generic catch-all instead. -/
theorem handleGenericError_status_fallback_cex :
    handleGenericError (obj false [("response", num 0)]) =
        Except.ok (str "An unexpected error occurred. Please try again.") ∧
      (Except.ok (str "An unexpected error occurred. Please try again.") : Except String JSVal) ≠
        Except.ok (str "An error occurred. Please try again.") :=
  ⟨rfl, fun h => by
    have h1 : str "An unexpected error occurred. Please try again." =
        str "An error occurred. Please try again." := by
      injection h
    have h2 : "An unexpected error occurred. Please try again." =
        "An error occurred. Please try again." := by
      injection h1
    exact absurd h2 (by decide)⟩

/-- C4 amended: for every input whose `response` field is truthy and whose
body yields no usable message (rule 1.b finds none), the result is
determined by `response.status` alone: 401, 403, 404 and 500 map to their
dedicated messages and any other or missing status to
"An error occurred. Please try again.". -/
theorem handleGenericError_status_fallback (e : JSVal)
    (h : truthy (getOpt e "response") = true)
    (hnone : messageFromData (getOpt (getOpt e "response") "data") = none) :
    (getOpt (getOpt e "response") "status" = num 401 →
      handleGenericError e = Except.ok (str "Unauthorized. Please log in again.")) ∧
    (getOpt (getOpt e "response") "status" = num 403 →
      handleGenericError e =
        Except.ok (str "You do not have permission to perform this action.")) ∧
    (getOpt (getOpt e "response") "status" = num 404 →
      handleGenericError e = Except.ok (str "Resource not found.")) ∧
    (getOpt (getOpt e "response") "status" = num 500 →
      handleGenericError e =
        Except.ok (str "A server error occurred. Please try again later.")) ∧
    (getOpt (getOpt e "response") "status" ≠ num 401 →
      getOpt (getOpt e "response") "status" ≠ num 403 →
      getOpt (getOpt e "response") "status" ≠ num 404 →
      getOpt (getOpt e "response") "status" ≠ num 500 →
      handleGenericError e = Except.ok (str "An error occurred. Please try again.")) := by
  have hmain := handleGenericError_of_truthy_response e h
  rw [hnone, Option.getD_none] at hmain
  refine ⟨fun hs => ?_, fun hs => ?_, fun hs => ?_, fun hs => ?_,
    fun hs1 hs2 hs3 hs4 => ?_⟩
  · rw [hmain, hs]; rfl
  · rw [hmain, hs]; rfl
  · rw [hmain, hs]; rfl
  · rw [hmain, hs]; rfl
  · rw [hmain]
    cases hst : getOpt (getOpt e "response") "status" with
    | num n =>
      rw [hst] at hs1 hs2 hs3 hs4
      have hn1 : n ≠ 401 := fun hh => hs1 (by rw [hh])
      have hn2 : n ≠ 403 := fun hh => hs2 (by rw [hh])
      have hn3 : n ≠ 404 := fun hh => hs3 (by rw [hh])
      have hn4 : n ≠ 500 := fun hh => hs4 (by rw [hh])
      simp [statusFallback, hn1, hn2, hn3, hn4]
    | _ => rfl

/-- Witness for the amended C4 at the spec's own scenario,
`\x7b response: \x7b status: 404, data: \x7b\x7d \x7d \x7d`. -/
theorem handleGenericError_status_fallback_witness :
    handleGenericError
        (obj false [("response", obj false [("status", num 404), ("data", obj false [])])]) =
      Except.ok (str "Resource not found.") :=
  (handleGenericError_status_fallback
    (obj false [("response", obj false [("status", num 404), ("data", obj false [])])])
    rfl rfl).2.2.1 rfl

/-- C10: null, undefined, numbers, booleans, and blank strings fall
through every rule to the final catch-all without raising. -/
theorem handleGenericError_unrecognized_catch_all :
    handleGenericError null =
        Except.ok (str "An unexpected error occurred. Please try again.") ∧
    handleGenericError undefined =
        Except.ok (str "An unexpected error occurred. Please try again.") ∧
    (∀ n : Int, handleGenericError (num n) =
        Except.ok (str "An unexpected error occurred. Please try again.")) ∧
    (∀ b : Bool, handleGenericError (bool b) =
        Except.ok (str "An unexpected error occurred. Please try again.")) ∧
    (∀ s : String, nonBlank s = false → handleGenericError (str s) =
        Except.ok (str "An unexpected error occurred. Please try again.")) := by
  refine ⟨rfl, rfl, fun n => rfl, fun b => ?_, fun s hs => ?_⟩
  · cases b <;> rfl
  · unfold handleGenericError
    rw [if_neg (by simp [getOpt, truthy]), if_neg (by simp [getOpt, truthy]),
      if_neg (by simp [isTypeError]), if_neg (by simp [isNonBlankStr, hs]),
      if_neg (by simp [getOpt, isNonBlankStr]), if_neg (by simp [isArray])]

/-- Witness for C10 at the blank string " ". -/
theorem handleGenericError_unrecognized_catch_all_witness :
    handleGenericError (str " ") =
      Except.ok (str "An unexpected error occurred. Please try again.") :=
  handleGenericError_unrecognized_catch_all.2.2.2.2 " " rfl

end JSVal

namespace JSVal

/-- Evaluation of the non-empty-array rule (lines 76-84 plus the line 87
catch-all): an array input never matches rules 1-5, and only its first
element is inspected. -/
lemma handleGenericError_arr_cons (v : JSVal) (vs : List JSVal) :
    handleGenericError (arr (v :: vs)) =
      if isNonBlankStr v = true then Except.ok v
      else if isNonBlankStr (getOpt v "message") = true then getStrict v "message"
      else Except.ok (str "An unexpected error occurred. Please try again.") := by
  unfold handleGenericError
  rw [if_neg (by simp [getOpt, truthy]), if_neg (by simp [getOpt, truthy]),
    if_neg (by simp [isTypeError]), if_neg (by simp [isNonBlankStr]),
    if_neg (by simp [getOpt, isNonBlankStr]),
    if_pos (by simp [isArray, arrLen])]
  rfl

/-- C3: for every input, the message surfaced from the `response` body
follows exactly the source's priority order: a non-blank string body is
returned verbatim; otherwise, for a non-null `typeof`-object body, the
first applicable of `data.message` (non-blank string), `data.detail`
(non-blank string), head of the array `data.message` (JSON-encoded unless
a string), head of the array `data.detail` (same rule), and finally the
first non-blank string among the body's field values flattened one level,
in enumeration order. -/
theorem handleGenericError_response_body_priority (e : JSVal) :
    (∀ s, getOpt (getOpt e "response") "data" = str s → nonBlank s = true →
      handleGenericError e = Except.ok (str s)) ∧
    ((isObjectTypeof (getOpt (getOpt e "response") "data") &&
        !isNull (getOpt (getOpt e "response") "data")) = true →
      (∀ s, getOpt (getOpt (getOpt e "response") "data") "message" = str s →
        nonBlank s = true → handleGenericError e = Except.ok (str s)) ∧
      (isNonBlankStr (getOpt (getOpt (getOpt e "response") "data") "message") = false →
        ∀ s, getOpt (getOpt (getOpt e "response") "data") "detail" = str s →
          nonBlank s = true → handleGenericError e = Except.ok (str s)) ∧
      (isNonBlankStr (getOpt (getOpt (getOpt e "response") "data") "detail") = false →
        ∀ v vs, getOpt (getOpt (getOpt e "response") "data") "message" = arr (v :: vs) →
          handleGenericError e = Except.ok (stringOrJson v)) ∧
      (isNonBlankStr (getOpt (getOpt (getOpt e "response") "data") "message") = false →
        isNonBlankStr (getOpt (getOpt (getOpt e "response") "data") "detail") = false →
        (isArray (getOpt (getOpt (getOpt e "response") "data") "message") &&
          decide (0 < arrLen (getOpt (getOpt (getOpt e "response") "data") "message"))) = false →
        ∀ v vs, getOpt (getOpt (getOpt e "response") "data") "detail" = arr (v :: vs) →
          handleGenericError e = Except.ok (stringOrJson v)) ∧
      (isNonBlankStr (getOpt (getOpt (getOpt e "response") "data") "message") = false →
        isNonBlankStr (getOpt (getOpt (getOpt e "response") "data") "detail") = false →
        (isArray (getOpt (getOpt (getOpt e "response") "data") "message") &&
          decide (0 < arrLen (getOpt (getOpt (getOpt e "response") "data") "message"))) = false →
        (isArray (getOpt (getOpt (getOpt e "response") "data") "detail") &&
          decide (0 < arrLen (getOpt (getOpt (getOpt e "response") "data") "detail"))) = false →
        ∀ m, (jsFlat1 (objValues (getOpt (getOpt e "response") "data"))).find?
            isNonBlankStr = some m →
          handleGenericError e = Except.ok m)) := by
  by_cases h : truthy (getOpt e "response") = true
  · have hmain := handleGenericError_of_truthy_response e h
    constructor
    · intro s hd hs
      rw [hmain, hd]
      simp [messageFromData, isNonBlankStr_str, hs]
    · intro hobj
      have hnbs : isNonBlankStr (getOpt (getOpt e "response") "data") = false :=
        isNonBlankStr_eq_false_of_objectTypeof _ hobj
      refine ⟨fun s hm hs => ?_, fun hm s hdt hs => ?_, fun hdt v vs hm => ?_,
        fun hm hdt hma v vs hd2 => ?_, fun hm hdt hma hda m hfind => ?_⟩
      · rw [hmain]
        simp [messageFromData, hnbs, hobj, hm, isNonBlankStr_str, hs]
      · rw [hmain]
        simp [messageFromData, hnbs, hobj, hm, hdt, isNonBlankStr_str, hs]
      · rw [hmain]
        simp [messageFromData, hnbs, hobj, hm, hdt, isNonBlankStr_arr, isArray_arr,
          arrLen_arr, arrHead_cons, Nat.succ_pos]
      · rw [hmain]
        simp [messageFromData, hnbs, hobj, hm, hdt, hma, hd2, isNonBlankStr_arr,
          isArray_arr, arrLen_arr, arrHead_cons, Nat.succ_pos]
      · rw [hmain]
        simp [messageFromData, hnbs, hobj, hm, hdt, hma, hda, hfind]
  · have h' : truthy (getOpt e "response") = false := by
      cases hb : truthy (getOpt e "response") with
      | false => rfl
      | true => exact absurd hb h
    have hd : getOpt (getOpt e "response") "data" = undefined :=
      getOpt_eq_undef_of_truthy_false _ _ h'
    rw [hd]
    exact ⟨fun s hs _ => JSVal.noConfusion hs, fun hobj => by simp [isObjectTypeof] at hobj⟩

/-- Witness for C3 at the field-error scenario
`\x7b response: \x7b status: 400, data: \x7b email: ["Email is invalid"] \x7d \x7d \x7d`. -/
theorem handleGenericError_response_body_priority_witness :
    handleGenericError (obj false [("response", obj false [("status", num 400),
        ("data", obj false [("email", arr [str "Email is invalid"])])])]) =
      Except.ok (str "Email is invalid") :=
  ((handleGenericError_response_body_priority
      (obj false [("response", obj false [("status", num 400),
        ("data", obj false [("email", arr [str "Email is invalid"])])])])).2
    rfl).2.2.2.2 rfl rfl rfl rfl (str "Email is invalid") rfl

/-- C6: for a non-empty array input (which never matches an earlier rule),
only element 0 is inspected: a non-blank string element 0 is returned; else
its non-blank string `message` field is returned; otherwise the generic
catch-all — and elements after the first never affect the result. -/
theorem handleGenericError_array_first_element (v : JSVal) (vs : List JSVal) :
    (isNonBlankStr v = true → handleGenericError (arr (v :: vs)) = Except.ok v) ∧
    (isNonBlankStr v = false → ∀ s, getOpt v "message" = str s → nonBlank s = true →
      handleGenericError (arr (v :: vs)) = Except.ok (str s)) ∧
    (isNonBlankStr v = false → isNonBlankStr (getOpt v "message") = false →
      handleGenericError (arr (v :: vs)) =
        Except.ok (str "An unexpected error occurred. Please try again.")) ∧
    (∀ ws, handleGenericError (arr (v :: vs)) = handleGenericError (arr (v :: ws))) := by
  refine ⟨fun h1 => ?_, fun h1 s hm hs => ?_, fun h1 h2 => ?_, fun ws => ?_⟩
  · rw [handleGenericError_arr_cons, if_pos h1]
  · have hm' : isNonBlankStr (getOpt v "message") = true := by
      rw [hm]; exact hs
    rw [handleGenericError_arr_cons, if_neg (by simp [h1]), if_pos hm',
      getStrict_ok_of_isNonBlankStr _ _ hm', hm]
  · rw [handleGenericError_arr_cons, if_neg (by simp [h1]), if_neg (by simp [h2])]
  · rw [handleGenericError_arr_cons, handleGenericError_arr_cons]

/-- Witness for C6 at the spec's scenario
`[\x7b message: "First error" \x7d, \x7b message: "Second error" \x7d]`. -/
theorem handleGenericError_array_first_element_witness :
    handleGenericError (arr [obj false [("message", str "First error")],
        obj false [("message", str "Second error")]]) =
      Except.ok (str "First error") :=
  (handleGenericError_array_first_element (obj false [("message", str "First error")])
    [obj false [("message", str "Second error")]]).2.1 rfl "First error" rfl rfl

/-- Classification of an object input with a falsy (or absent) `response`
depends only on its TypeError flag and its `request` and `message` fields:
these are the only fields rules 2-7 consult. -/
lemma handleGenericError_obj_congr (te : Bool) (fs gs : List (String × JSVal))
    (hresp : truthy (getOpt (obj te fs) "response") = false)
    (hresp' : truthy (getOpt (obj te gs) "response") = false)
    (hreq : getOpt (obj te fs) "request" = getOpt (obj te gs) "request")
    (hmsg : getOpt (obj te fs) "message" = getOpt (obj te gs) "message") :
    handleGenericError (obj te fs) = handleGenericError (obj te gs) := by
  unfold handleGenericError
  simp [hresp, hresp', hreq, hmsg, getStrict_obj, isTypeError, isNonBlankStr, isArray]

/-- C9: the presence checks for `response` (line 12) and `request`
(line 57) are truthiness checks, not field-presence checks: an object
whose `response` field exists but is falsy is classified exactly as if the
field were absent; in particular `\x7b response: null, request: \x7b\x7d \x7d` yields
the no-response message and `\x7b response: false, message: m \x7d` with `m`
non-blank yields `m`. -/
theorem handleGenericError_falsy_response_ignored (te : Bool)
    (fs : List (String × JSVal))
    (h : truthy (getOpt (obj te fs) "response") = false) :
    (handleGenericError (obj te fs) =
      handleGenericError (obj te (eraseField fs "response"))) ∧
    handleGenericError (obj false [("response", null), ("request", obj false [])]) =
      Except.ok (str "No response from server. Please check your internet connection.") ∧
    (∀ s, nonBlank s = true →
      handleGenericError (obj false [("response", bool false), ("message", str s)]) =
        Except.ok (str s)) := by
  refine ⟨?_, rfl, fun s hs => ?_⟩
  · apply handleGenericError_obj_congr te fs (eraseField fs "response") h
    · simp [getOpt, lookupField_eraseField_self, truthy]
    · simp [getOpt, lookupField_eraseField_ne fs "response" "request" (by decide)]
    · simp [getOpt, lookupField_eraseField_ne fs "response" "message" (by decide)]
  · unfold handleGenericError
    rw [if_neg (fun hh => Bool.noConfusion hh), if_neg (fun hh => Bool.noConfusion hh),
      if_neg (fun hh => Bool.noConfusion hh), if_neg (fun hh => Bool.noConfusion hh),
      if_pos (show isNonBlankStr (getOpt (obj false [("response", bool false),
        ("message", str s)]) "message") = true from hs)]
    rfl

/-- Witness for C9: erasing the falsy `response` field from
`\x7b response: null, request: \x7b\x7d \x7d` does not change the classification. -/
theorem handleGenericError_falsy_response_ignored_witness :
    handleGenericError (obj false [("response", null), ("request", obj false [])]) =
      handleGenericError (obj false
        (eraseField [("response", null), ("request", obj false [])] "response")) :=
  (handleGenericError_falsy_response_ignored false
    [("response", null), ("request", obj false [])] rfl).1

end JSVal
